import Mathlib

/-!
Shallow embedding of the transition-matrix and Bayesian-HMM sampling code of
scikit-time (files `sktime/markov/tools/estimation/dense/tmat_sampling/tmatrix_sampler.py`
and `sktime/markovprocess/bhmm/estimators/bayesian_sampling.py`), together with
theorems settling the specification claims about them.

Numeric matrix entries are modelled with `ℚ` (the values manipulated by the
claims are exact small integers).  Randomized collaborators (the low-level
samplers, `numpy.random.dirichlet`, the maximum-likelihood initializer) are
abstracted as oracle functions passed explicitly; the control flow, branching
and error behaviour is translated from the Python source line by line.
-/

abbrev Vec := List ℚ

abbrev Mat := List (List ℚ)

abbrev Obs := List ℚ

def zeroVec (n : ℕ) : Vec := List.replicate n 0

def onesVec (n : ℕ) : Vec := List.replicate n 1

def zeroMat (n : ℕ) : Mat := List.replicate n (zeroVec n)

def onesMat (n : ℕ) : Mat := List.replicate n (onesVec n)

def vecAdd (v w : Vec) : Vec := List.zipWith (· + ·) v w

def matAdd (A B : Mat) : Mat := List.zipWith vecAdd A B

def matGet (M : Mat) (i j : ℕ) : ℚ := (M.getD i []).getD j 0

/-- `count_matrix - 1.0` elementwise, as computed by numpy broadcasting in
`SamplerNonRev(count_matrix - 1.0)` (tmatrix_sampler.py line 63). -/
def matSubOne (C : Mat) : Mat := C.map (fun row => row.map (fun x => x - 1))

/-! ### TransitionMatrixSampler (tmatrix_sampler.py) -/

/-- The value stored into `self.n_steps`.  Python computes `math.sqrt(nstates)`
(a float); the value is kept symbolic so that no floating-point rounding has to
be modelled, with `NSteps.toRat?` giving the exact value on perfect squares
(where the IEEE result is exact). -/
inductive NSteps where
  | lit (q : ℚ)
  | sqrtOf (n : ℕ)
deriving DecidableEq, Repr

def NSteps.toRat? : NSteps → Option ℚ
  | .lit q => some q
  | .sqrtOf n => ((List.range (n + 1)).find? (fun k => decide (k * k = n))).map (fun k => (k : ℚ))

/-- Which low-level sampler `__init__` constructed, and on which data
(tmatrix_sampler.py lines 50-65). -/
inductive SamplerKind where
  | nonRev (C : Mat)
  | rev (C : Mat) (P0 : Option Mat)
  | revPi (C : Mat) (mu : Vec) (P0 : Option Mat)
deriving DecidableEq, Repr

/-- The `prior` argument: only the string `'sparse'` is distinguished by the
code (tmatrix_sampler.py line 44). -/
inductive TMPrior where
  | sparse
  | other
deriving DecidableEq, Repr

inductive TMSErr where
  | onlySparsePriorImplemented
  | nonReversibleFixedPiNotImplemented
deriving DecidableEq, Repr

structure TransitionMatrixSampler where
  count_matrix : Mat
  sampler : SamplerKind
  n_steps : NSteps
deriving DecidableEq, Repr

/-- `TransitionMatrixSampler.__init__` (tmatrix_sampler.py lines 41-68).
`n_steps` is `none` when the caller passes Python `None`, `some q` when the
caller passes the number `q`; the signature default is `n_steps=1`, i.e.
`some 1` (see `TransitionMatrixSampler.default_n_steps`). -/
def TransitionMatrixSampler.init (count_matrix : Mat) (reversible : Bool)
    (mu : Option Vec) (P0 : Option Mat) (n_steps : Option ℚ) (prior : TMPrior) :
    Except TMSErr TransitionMatrixSampler :=
  match prior with
  | .other => .error .onlySparsePriorImplemented
  | .sparse =>
    if reversible then
      match mu with
      | none =>
        .ok { count_matrix := count_matrix
              sampler := .rev count_matrix P0
              n_steps := match n_steps with
                | none => .sqrtOf count_matrix.length
                | some q => .lit q }
      | some m =>
        .ok { count_matrix := count_matrix
              sampler := .revPi count_matrix m P0
              n_steps := match n_steps with
                | none => .lit 6
                | some q => .lit q }
    else
      match mu with
      | none =>
        .ok { count_matrix := count_matrix
              sampler := .nonRev (matSubOne count_matrix)
              n_steps := .lit 1 }
      | some _ => .error .nonReversibleFixedPiNotImplemented

/-- The declared default of the `n_steps` parameter in the Python signature
(`n_steps=1`, tmatrix_sampler.py line 42). -/
def TransitionMatrixSampler.default_n_steps : Option ℚ := some 1

/-- What `TransitionMatrixSampler.sample` returns: on the `nsamples == 1` fast
path the low-level sampler's single result is returned directly, otherwise a
stack of matrices (with a parallel stack of stationary vectors when
`return_statdist`). -/
inductive SampleRet where
  | single (P : Mat) (statdist : Option Vec)
  | stack (Ps : List Mat)
  | stackPi (Ps : List Mat) (pis : List Vec)
deriving DecidableEq, Repr

def SampleRet.stackLen : SampleRet → Option ℕ
  | .single _ _ => none
  | .stack Ps => some Ps.length
  | .stackPi Ps _ => some Ps.length

def SampleRet.piStackLen : SampleRet → Option ℕ
  | .single _ _ => none
  | .stack _ => none
  | .stackPi _ pis => some pis.length

/-- `TransitionMatrixSampler.sample` (tmatrix_sampler.py lines 70-88).
`draw i` abstracts the i-th call of `self.sampler.sample(N=self.n_steps, ...)`
(a randomized external collaborator, its module not under src/), returning the
matrix and the stationary-distribution estimate.  `has_call_back` is whether a
`call_back` argument was supplied; the second component of the result counts
how many times it was invoked. -/
def TransitionMatrixSampler.sample (s : TransitionMatrixSampler)
    (draw : ℕ → Mat × Vec) (nsamples : ℕ) (return_statdist : Bool)
    (has_call_back : Bool) : SampleRet × ℕ :=
  if nsamples = 1 then
    (if return_statdist then .single (draw 0).1 (some (draw 0).2)
     else .single (draw 0).1 none, 0)
  else
    let results := (List.range nsamples).map draw
    let cb := if has_call_back then nsamples else 0
    if return_statdist then
      (.stackPi (results.map Prod.fst) (results.map Prod.snd), cb)
    else
      (.stack (results.map Prod.fst), cb)

/-- Concrete 2x2 count matrix used for concrete evaluations. -/
def exCount2 : Mat := [[3, 1], [2, 4]]

def exTMS : TransitionMatrixSampler :=
  { count_matrix := exCount2
    sampler := .nonRev (matSubOne exCount2)
    n_steps := .lit 1 }

def exDraw : ℕ → Mat × Vec := fun _ => ([[1, 0], [0, 1]], [1, 0])

def exCount4 : Mat := [[1, 1, 0, 0], [1, 1, 0, 0], [0, 0, 1, 1], [0, 0, 1, 1]]

/-! ### Data model for the Bayesian HMM sampler (bayesian_sampling.py) -/

/-- A Python attribute slot: `unset` means the attribute was never assigned
(accessing it raises `AttributeError`), `pynone` means it holds Python `None`,
`val` means it holds a value. -/
inductive PyAttr (α : Type) where
  | unset
  | pynone
  | val (a : α)
deriving DecidableEq, Repr

/-- Modelled from the spec: the HMM model class (`sktime.markovprocess.bhmm.HMM`)
is not under src/.  Fields follow spec section 3 "Data Model": `nstates`,
`transition_matrix`, `initial_distribution`, opaque `output_model` emission
parameters, and the per-observation `hidden_state_trajectories` (a
Python-`None`-able attribute, written each sweep by
`_update_hidden_state_trajectories`).  The extra field
`hidden_state_trajectory` (singular) models the distinct attribute of that name
created by the assignment `model_copy.hidden_state_trajectory = None` in
`BayesianHMMSampler.fit` (bayesian_sampling.py line 282): assigning an
attribute that the class does not define simply creates a new slot and leaves
`hidden_state_trajectories` untouched. -/
structure HMM where
  nstates : ℕ
  transition_matrix : Mat
  initial_distribution : Vec
  output_model : ℕ
  hidden_state_trajectories : Option (List (List ℕ))
  hidden_state_trajectory : Option (List ℕ)
deriving DecidableEq, Repr

/-- Modelled from the spec: `HMM.copy` produces a deep, independent copy
("each emitted sample is a deep, independent copy", spec section 3); in a pure
embedding a deep copy is the value itself. -/
def HMM.copy (m : HMM) : HMM := m

/-- Modelled from the spec: `model.update(p0, Tij)` installs the newly sampled
initial distribution and transition matrix into the working model
("sample new `A` ..., sample new `pi` ...", spec section 4.4; used at
bayesian_sampling.py line 372). -/
def HMM.update (m : HMM) (p0 : Vec) (Tij : Mat) : HMM :=
  { m with initial_distribution := p0, transition_matrix := Tij }

def transPairs : List ℕ → List (ℕ × ℕ)
  | a :: b :: rest => (a, b) :: transPairs (b :: rest)
  | _ => []

def matIncr (M : Mat) (i j : ℕ) : Mat :=
  M.mapIdx (fun a row => if a = i then row.mapIdx (fun b x => if b = j then x + 1 else x) else row)

def vecIncr (v : Vec) (i : ℕ) : Vec :=
  v.mapIdx (fun a x => if a = i then x + 1 else x)

/-- Modelled from the spec: `model.count_matrix()` "aggregates transition
counts from current hidden trajectories" (spec section 3, CountMatrix). -/
def HMM.count_matrix (m : HMM) : Mat :=
  (m.hidden_state_trajectories.getD []).foldl
    (fun acc traj => (transPairs traj).foldl (fun M p => matIncr M p.1 p.2) acc)
    (zeroMat m.nstates)

/-- Modelled from the spec: `model.count_init()` "aggregates initial-state
occupancy counts" (spec section 3, CountMatrix). -/
def HMM.count_init (m : HMM) : Vec :=
  ((m.hidden_state_trajectories.getD []).filterMap List.head?).foldl vecIncr
    (zeroVec m.nstates)

def adjStep (C : Mat) (s : List ℕ) : List ℕ :=
  (s ++ s.flatMap (fun i => (List.range C.length).filter (fun j => decide (0 < matGet C i j)))).dedup

def reachSet (C : Mat) (i : ℕ) : List ℕ := (adjStep C)^[C.length] [i]

/-- Modelled from the spec: `msmtools.estimation.is_connected(C, directed=True)`
(an external collaborator) decides whether `C` "is connected under directed
reachability" (spec section 4.2): every state reaches every state through
edges `i -> j` with `C[i,j] > 0`. -/
def is_connected (C : Mat) : Bool :=
  (List.range C.length).all fun i =>
    (List.range C.length).all fun j => (reachSet C i).contains j

/-- Errors raised by the embedded code; `attributeError` / `typeError` stand
for Python's built-in exceptions on access to an unset / `None` attribute. -/
inductive Err where
  | p0PriorDimMismatch
  | p0PriorModeUndefined
  | tmatPriorModeUndefined
  | disconnectedInitNotImplemented
  | disconnectedSweepNotImplemented
  | noObservations
  | attributeError
  | typeError
deriving DecidableEq, Repr

/-- A numpy array argument: 1-d or 2-d. -/
inductive PyArray where
  | vec (v : Vec)
  | mat (m : Mat)
deriving DecidableEq, Repr

/-- The `p0_prior` / `transition_matrix_prior` constructor arguments: Python
`None`, one of the strings the code compares against (`'sparse'`, `'mixed'`,
`'uniform'`), any other string, or a numpy array. -/
inductive PriorSpec where
  | pyNone
  | sparse
  | mixed
  | uniform
  | otherStr
  | ndarray (a : PyArray)
deriving DecidableEq, Repr

def isSquareOf (m : Mat) (n : ℕ) : Bool :=
  decide (m.length = n) && m.all (fun r => decide (r.length = n))

structure BayesianHMMSampler where
  reversible : Bool
  stationary : Bool
  nstates : ℕ
  initial_model : Option HMM
  prior_n0 : PyAttr Vec
  prior_C : PyAttr Mat
  transition_matrix_sampling_steps : ℕ
  nsamples : ℕ
  output : String
deriving DecidableEq, Repr

/-- `BayesianHMMSampler.__init__` (bayesian_sampling.py lines 144-203),
translated branch by branch.  Note two source peculiarities kept verbatim:
the mismatched-shape `transition_matrix_prior` ndarray branch (lines 180-182)
has no `else` and leaves `prior_C` unassigned, and the all-ones branch
(line 188) tests `p0_prior == 'uniform'` rather than
`transition_matrix_prior == 'uniform'`. -/
def BayesianHMMSampler.init (nstates : ℕ) (initial_model : Option HMM)
    (reversible stationary : Bool) (transition_matrix_sampling_steps : ℕ)
    (p0_prior transition_matrix_prior : PriorSpec) (output : String)
    (nsamples : ℕ) : Except Err BayesianHMMSampler :=
  let initModel := initial_model.map HMM.copy
  let n0E : Except Err (PyAttr Vec) :=
    if p0_prior = .pyNone ∨ p0_prior = .sparse then .ok (.val (zeroVec nstates))
    else
      match p0_prior with
      | .ndarray (.vec v) =>
          if v.length = nstates then .ok (.val v) else .error .p0PriorDimMismatch
      | .ndarray (.mat _) => .error .p0PriorDimMismatch
      | .mixed =>
          match initModel with
          | some m => .ok (.val m.initial_distribution)
          | none => .ok .pynone
      | .uniform => .ok (.val (onesVec nstates))
      | _ => .error .p0PriorModeUndefined
  match n0E with
  | .error e => .error e
  | .ok prior_n0 =>
    let cE : Except Err (PyAttr Mat) :=
      if transition_matrix_prior = .pyNone ∨ p0_prior = .sparse then
        .ok (.val (zeroMat nstates))
      else
        match transition_matrix_prior with
        | .ndarray (.mat m) =>
            if isSquareOf m nstates then .ok (.val m) else .ok .unset
        | .ndarray (.vec _) => .ok .unset
        | .mixed =>
            match initModel with
            | some m => .ok (.val m.transition_matrix)
            | none => .ok .pynone
        | _ =>
            if p0_prior = .uniform then .ok (.val (onesMat nstates))
            else .error .tmatPriorModeUndefined
    match cE with
    | .error e => .error e
    | .ok prior_C =>
      let chk : Except Err Unit :=
        match initModel with
        | none => .ok ()
        | some m =>
          if reversible then
            match prior_C with
            | .unset => .error .attributeError
            | .pynone => .error .typeError
            | .val pc =>
                if is_connected (matAdd m.transition_matrix pc) then .ok ()
                else .error .disconnectedInitNotImplemented
          else .ok ()
      match chk with
      | .error e => .error e
      | .ok _ =>
        .ok { reversible := reversible
              stationary := stationary
              nstates := nstates
              initial_model := initModel
              prior_n0 := prior_n0
              prior_C := prior_C
              transition_matrix_sampling_steps := transition_matrix_sampling_steps
              nsamples := nsamples
              output := output }

/-! ### Gibbs sweep and fit (bayesian_sampling.py lines 208-380) -/

/-- Oracles abstracting the randomized / external collaborators invoked by one
Gibbs sweep: `samplePath` is `_sample_hidden_state_trajectory` (hidden.forward
plus hidden.sample_path, writing through the `_pobs`/`_alpha` scratch buffers),
`sampleEmissions` is `model.output_model.sample(...)`,
`transition_matrix_est` is `msmest.transition_matrix(C, reversible, ...)`,
`sample_tmatrix` is `msmest.sample_tmatrix(C, nsample=1, nsteps, reversible)`,
`dirichlet` is `numpy.random.dirichlet`, `statdist` is
`_tmatrix_disconnected.stationary_distribution(Tij, C)`, and `genInitialModel`
is `_generateInitialModel` (the MaximumLikelihoodHMM fit). -/
structure Oracles where
  samplePath : HMM → Obs → List ℕ
  sampleEmissions : HMM → List Obs → ℕ
  transition_matrix_est : Bool → Mat → Mat
  sample_tmatrix : Mat → ℕ → Bool → Mat
  dirichlet : Vec → Vec
  statdist : Mat → Mat → Vec
  genInitialModel : List Obs → HMM

/-- `_update_hidden_state_trajectories` (bayesian_sampling.py lines 301-306):
stores one freshly sampled path per observation sequence into
`model.hidden_state_trajectories` (plural). -/
def BayesianHMMSampler.update_hidden_state_trajectories (g : Oracles)
    (model : HMM) (observations : List Obs) : HMM :=
  { model with hidden_state_trajectories := some (observations.map (g.samplePath model)) }

/-- `_update_emission_probabilities` (bayesian_sampling.py lines 338-342):
the output model is resampled given the current hidden-state assignment. -/
def BayesianHMMSampler.update_emission_probabilities (g : Oracles)
    (model : HMM) (observations : List Obs) : HMM :=
  { model with output_model := g.sampleEmissions model observations }

/-- The masked Dirichlet assignment of bayesian_sampling.py lines 365-369:
`p0` is zero where the pseudo-count vector `w` is non-positive, and takes the
entries of the Dirichlet draw `d` (made over the positive entries of `w`) in
order elsewhere. -/
def scatterPos : Vec → Vec → Vec
  | [], _ => []
  | x :: xs, d =>
    if 0 < x then d.headD 0 :: scatterPos xs d.tail else 0 :: scatterPos xs d

/-- `C[zeros] = 0` where `zeros = np.where(P0 + P0.T == 0)`
(bayesian_sampling.py lines 355-356). -/
def zeroForce (C P0 : Mat) : Mat :=
  C.mapIdx fun i row => row.mapIdx fun j x =>
    if matGet P0 i j + matGet P0 j i = 0 then 0 else x

/-- The arguments of the `msmest.sample_tmatrix` call made by a sweep
(bayesian_sampling.py lines 358-359), recorded so that theorems can speak
about the sampling mode actually requested. -/
structure TMatCall where
  C : Mat
  nsteps : ℕ
  reversible : Bool
deriving DecidableEq, Repr

/-- `_update_transition_matrix` (bayesian_sampling.py lines 344-372): posterior
count matrix `C = model.count_matrix() + self.prior_C`, connectivity guard for
the reversible mode, the zero-forcing workaround, one `sample_tmatrix` draw,
and the initial-distribution update. -/
def BayesianHMMSampler.update_transition_matrix (s : BayesianHMMSampler)
    (g : Oracles) (model : HMM) : Except Err (HMM × TMatCall) :=
  match s.prior_C with
  | .unset => .error .attributeError
  | .pynone => .error .typeError
  | .val priorC =>
    let C := matAdd model.count_matrix priorC
    if s.reversible && !is_connected C then .error .disconnectedSweepNotImplemented
    else
      let P0 := g.transition_matrix_est s.reversible C
      let C2 := zeroForce C P0
      let Tij := g.sample_tmatrix C2 s.transition_matrix_sampling_steps s.reversible
      match (if s.stationary then Except.ok (g.statdist Tij C2)
             else
               match s.prior_n0 with
               | .unset => Except.error Err.attributeError
               | .pynone => Except.error Err.typeError
               | .val priorN0 =>
                 let w := vecAdd model.count_init priorN0
                 Except.ok (scatterPos w (g.dirichlet (w.filter (fun x => decide (0 < x)))))) with
      | .error e => .error e
      | .ok p0 =>
          .ok (model.update p0 Tij,
               { C := C2, nsteps := s.transition_matrix_sampling_steps, reversible := s.reversible })

/-- `_update` (bayesian_sampling.py lines 295-299): one full Gibbs sweep. -/
def BayesianHMMSampler.update (s : BayesianHMMSampler) (g : Oracles)
    (observations : List Obs) (model : HMM) : Except Err HMM :=
  let m1 := BayesianHMMSampler.update_hidden_state_trajectories g model observations
  let m2 := BayesianHMMSampler.update_emission_probabilities g m1 observations
  match s.update_transition_matrix g m2 with
  | .error e => .error e
  | .ok (m3, _) => .ok m3

/-- Runs `n` Gibbs sweeps in sequence, propagating the first raised error
(the burn-in / thinning loops of `fit`). -/
def iterUpdate (f : HMM → Except Err HMM) : ℕ → HMM → Except Err HMM
  | 0, m => .ok m
  | k + 1, m =>
    match f m with
    | .error e => .error e
    | .ok m' => iterUpdate f k m'

/-- The collection loop of `fit` (bayesian_sampling.py lines 273-285): for each
of `k` samples, `nthin` sweeps, then a copy of the working model is stored; when
`save_hidden_state_trajectory` is false the copy's `hidden_state_trajectory`
attribute (singular, line 282) is set to `None`. -/
def collectSamples (f : HMM → Except Err HMM) (nthin : ℕ) (save : Bool) :
    ℕ → HMM → Except Err (List HMM)
  | 0, _ => .ok []
  | k + 1, m =>
    match iterUpdate f nthin m with
    | .error e => .error e
    | .ok m' =>
      match collectSamples f nthin save k m' with
      | .error e => .error e
      | .ok rest =>
        .ok ((if save then m'.copy
              else { m'.copy with hidden_state_trajectory := none }) :: rest)

/-- Lazy prior / initial-model resolution at the top of `fit`
(bayesian_sampling.py lines 257-263): when no initial model was supplied one is
generated, and priors that are still Python `None` (the `'mixed'` policy
without an initial model) are inherited from it.  Accessing an unset prior
attribute raises `AttributeError`. -/
def resolveAttr {α : Type} (a : PyAttr α) (d : α) : Except Err (PyAttr α) :=
  match a with
  | .unset => .error .attributeError
  | .pynone => .ok (.val d)
  | .val v => .ok (.val v)

def resolveSampler (s : BayesianHMMSampler) (g : Oracles) (observations : List Obs) :
    Except Err BayesianHMMSampler :=
  match s.initial_model with
  | some _ => .ok s
  | none =>
    match resolveAttr s.prior_n0 (g.genInitialModel observations).initial_distribution with
    | .error e => .error e
    | .ok n0 =>
      match resolveAttr s.prior_C (g.genInitialModel observations).transition_matrix with
      | .error e => .error e
      | .ok pC =>
        .ok { s with initial_model := some (g.genInitialModel observations),
                     prior_n0 := n0, prior_C := pC }

/-- The initial model in effect for a `fit` call: the one supplied at
construction, or the freshly generated maximum-likelihood model. -/
def fitInitialModel (s : BayesianHMMSampler) (g : Oracles)
    (observations : List Obs) : HMM :=
  match s.initial_model with
  | some m => m
  | none => g.genInitialModel observations

/-- `BayesianHMMPosterior` (bayesian_sampling.py lines 32-43): the prior
snapshot plus the collected posterior samples, as populated by `fit`. -/
structure BayesianHMMPosterior where
  prior : HMM
  samples : List HMM
deriving DecidableEq, Repr

/-- `fit` (bayesian_sampling.py lines 208-293).  The two trailing booleans
report whether the `_alpha` (forward-variable) and `_pobs` (output-likelihood)
scratch buffers are still allocated on the estimator when the call ends: they
are allocated at lines 254-255 right after the empty-input check and deleted at
lines 290-291 on the normal return path only — an error raised in between
propagates without any `try/finally`. -/
def BayesianHMMSampler.fit (s : BayesianHMMSampler) (g : Oracles)
    (observations : List Obs) (nburn nthin : ℕ)
    (save_hidden_state_trajectory : Bool) :
    Except Err BayesianHMMPosterior × Bool × Bool :=
  if observations = [] then (.error .noObservations, false, false)
  else
    match resolveSampler s g observations with
    | .error e => (.error e, true, true)
    | .ok s1 =>
      match iterUpdate (s1.update g observations) nburn
          ((fitInitialModel s g observations).copy).copy with
      | .error e => (.error e, true, true)
      | .ok m0 =>
        match collectSamples (s1.update g observations) nthin
            save_hidden_state_trajectory s1.nsamples m0 with
        | .error e => (.error e, true, true)
        | .ok models =>
          (.ok { prior := (fitInitialModel s g observations).copy,
                 samples := models }, false, false)

def exceptIsOk {ε α : Type} : Except ε α → Bool
  | .ok _ => true
  | .error _ => false

/-! ### Concrete instances for evaluations and witnesses -/

/-- A concrete 2-state HMM model. -/
def exModel0 : HMM :=
  { nstates := 2
    transition_matrix := [[1, 0], [0, 1]]
    initial_distribution := [1, 0]
    output_model := 0
    hidden_state_trajectories := none
    hidden_state_trajectory := none }

/-- Concrete deterministic oracles: every sampled hidden path stays in state 0,
the transition-matrix estimate is the identity on its count-matrix argument,
and the Dirichlet draw returns its concentration vector. -/
def exOr : Oracles :=
  { samplePath := fun _ o => List.replicate o.length 0
    sampleEmissions := fun _ _ => 0
    transition_matrix_est := fun _ C => C
    sample_tmatrix := fun _ _ _ => [[1, 0], [0, 1]]
    dirichlet := fun v => v
    statdist := fun _ _ => [1, 0]
    genInitialModel := fun _ => exModel0 }

def exObs : List Obs := [[0, 1]]

/-- A concrete non-reversible sampler configuration. -/
def exS : BayesianHMMSampler :=
  { reversible := false
    stationary := false
    nstates := 2
    initial_model := some exModel0
    prior_n0 := .val (zeroVec 2)
    prior_C := .val (zeroMat 2)
    transition_matrix_sampling_steps := 10
    nsamples := 1
    output := "gaussian" }

/-- The same configuration with `reversible=True`. -/
def exSRev : BayesianHMMSampler := { exS with reversible := true }

/-- A model whose hidden trajectories produce the disconnected count matrix
`[[1,0],[0,0]]`. -/
def exModelTraj : HMM := { exModel0 with hidden_state_trajectories := some [[0, 0]] }

/-- The posterior produced by the concrete successful fit below. -/
def exPost : BayesianHMMPosterior :=
  { prior := exModel0
    samples := [{ exModel0 with hidden_state_trajectories := some [[0, 0]] }] }

/-! ### Claim theorems -/

/-- C6: when `TransitionMatrixSampler` is constructed in non-reversible mode
(`reversible=False`, no fixed stationary vector), the low-level sampler is the
Dirichlet-based `SamplerNonRev` built on `count_matrix - 1`, and `n_steps` is
set to 1 regardless of the `n_steps` argument supplied by the caller. -/
theorem C6_nonreversible_construction (C : Mat) (P0 : Option Mat) (ns : Option ℚ) :
    TransitionMatrixSampler.init C false none P0 ns .sparse =
      .ok { count_matrix := C, sampler := .nonRev (matSubOne C), n_steps := .lit 1 } :=
  rfl

/-- C7 counterexample: constructing a reversible sampler on a 4-state count
matrix WITHOUT specifying `n_steps` (i.e. with the signature default
`n_steps=1`) yields `n_steps = 1`, not `sqrt(nstates) = sqrt(4) = 2` as the
claim states. -/
theorem C7_default_nsteps_counterexample :
    Except.map TransitionMatrixSampler.n_steps
      (TransitionMatrixSampler.init exCount4 true none none
        TransitionMatrixSampler.default_n_steps .sparse) = .ok (.lit 1) ∧
    NSteps.toRat? (.lit 1) = some 1 ∧
    NSteps.toRat? (.sqrtOf 4) = some 2 ∧ (1 : ℚ) ≠ 2 :=
  ⟨rfl, rfl, by with_unfolding_all rfl, by norm_num⟩

/-- C7 amended: it is only when the caller explicitly passes `n_steps=None`
that the reversible sampler defaults to `sqrt(nstates)` inner sweeps and the
reversible-with-fixed-stationary-vector sampler defaults to 6; when `n_steps`
is left unspecified the signature default 1 is kept. -/
theorem C7_explicit_none_defaults (C : Mat) (P0 : Option Mat) (mu : Vec) :
    Except.map TransitionMatrixSampler.n_steps
      (TransitionMatrixSampler.init C true none P0 none .sparse) =
        .ok (.sqrtOf C.length) ∧
    Except.map TransitionMatrixSampler.n_steps
      (TransitionMatrixSampler.init C true (some mu) P0 none .sparse) =
        .ok (.lit 6) :=
  ⟨rfl, rfl⟩

/-- C5 counterexample: with `nsamples = 1` and a callback supplied,
`TransitionMatrixSampler.sample` invokes the callback zero times (not once per
draw) and returns the bare draw, not a stack of one matrix. -/
theorem C5_single_sample_counterexample :
    (TransitionMatrixSampler.sample exTMS exDraw 1 false true).2 = 0 ∧
    (TransitionMatrixSampler.sample exTMS exDraw 1 false true).1.stackLen = none :=
  ⟨rfl, rfl⟩

/-- C5 amended: for every `nsamples ≥ 2`, `sample` returns a stack of
`nsamples` matrices (with a parallel stack of `nsamples` stationary-vector
estimates when `return_statdist`), and a supplied callback is invoked exactly
once after each of the `nsamples` draws; the `nsamples = 1` fast path instead
returns the single draw directly and never invokes the callback. -/
theorem C5_batch_contract (s : TransitionMatrixSampler) (draw : ℕ → Mat × Vec)
    (nsamples : ℕ) (h : 2 ≤ nsamples) (rsd cb : Bool) :
    (s.sample draw nsamples rsd cb).1.stackLen = some nsamples ∧
    (s.sample draw nsamples rsd cb).2 = (if cb then nsamples else 0) ∧
    (rsd = true → (s.sample draw nsamples rsd cb).1.piStackLen = some nsamples) ∧
    (s.sample draw 1 rsd cb).2 = 0 ∧ (s.sample draw 1 rsd cb).1.stackLen = none := by
  have hne : nsamples ≠ 1 := by omega
  unfold TransitionMatrixSampler.sample
  rw [if_neg hne]
  cases rsd <;> cases cb <;>
    simp [SampleRet.stackLen, SampleRet.piStackLen]

/-- C5 witness: the batch contract evaluated at `nsamples = 3`. -/
theorem C5_batch_contract_witness :
    2 ≤ 3 ∧
    ((TransitionMatrixSampler.sample exTMS exDraw 3 true true).1.stackLen = some 3 ∧
     (TransitionMatrixSampler.sample exTMS exDraw 3 true true).2 = (if true then 3 else 0) ∧
     (true = true →
       (TransitionMatrixSampler.sample exTMS exDraw 3 true true).1.piStackLen = some 3) ∧
     (TransitionMatrixSampler.sample exTMS exDraw 1 true true).2 = 0 ∧
     (TransitionMatrixSampler.sample exTMS exDraw 1 true true).1.stackLen = none) :=
  ⟨by norm_num, C5_batch_contract exTMS exDraw 3 (by norm_num) true true⟩

/-- C2: constructing `BayesianHMMSampler` with `transition_matrix_prior='uniform'`
and the default `p0_prior='mixed'` raises
`ValueError('transition matrix prior mode undefined')` instead of setting the
all-ones prior, because line 188 of bayesian_sampling.py tests
`p0_prior == 'uniform'` instead of `transition_matrix_prior == 'uniform'`; the
all-ones matrix is produced only when `p0_prior` happens to be `'uniform'`
too. -/
theorem C2_uniform_tmatrix_prior_raises :
    BayesianHMMSampler.init 2 none true false 1000 .mixed .uniform "gaussian" 100 =
      .error .tmatPriorModeUndefined ∧
    Except.map BayesianHMMSampler.prior_C
      (BayesianHMMSampler.init 2 none true false 1000 .uniform .uniform "gaussian" 100) =
      .ok (.val (onesMat 2)) :=
  ⟨rfl, rfl⟩

/-- C4: a `p0_prior` array of mismatched length is rejected with a
configuration error, but a `transition_matrix_prior` array of mismatched shape
(here 1x1 against `nstates=2`) is silently accepted: construction returns
normally with `prior_C` never assigned, and when an initial model is supplied
under `reversible=True` the construction instead dies with an
`AttributeError` on the unset `prior_C`, not a configuration error. -/
theorem C4_mismatched_tmatrix_prior_shape_accepted :
    BayesianHMMSampler.init 2 none true false 1000 (.ndarray (.vec [0])) .mixed
      "gaussian" 100 = .error .p0PriorDimMismatch ∧
    Except.map BayesianHMMSampler.prior_C
      (BayesianHMMSampler.init 2 none true false 1000 .mixed (.ndarray (.mat [[0]]))
        "gaussian" 100) = .ok .unset ∧
    BayesianHMMSampler.init 2 (some exModel0) true false 1000 .mixed
      (.ndarray (.mat [[0]])) "gaussian" 100 = .error .attributeError :=
  ⟨rfl, rfl, rfl⟩

/-- C10: constructing with `p0_prior='sparse'` is accepted, yields zero
initial-distribution pseudo-counts, and forces the transition-matrix prior
pseudo-counts to the zero matrix regardless of the `transition_matrix_prior`
argument. -/
theorem C10_sparse_prior_zeros (nstates : ℕ) (rev stat : Bool) (steps nsamp : ℕ)
    (tp : PriorSpec) (out : String) :
    BayesianHMMSampler.init nstates none rev stat steps .sparse tp out nsamp =
      .ok { reversible := rev, stationary := stat, nstates := nstates,
            initial_model := none, prior_n0 := .val (zeroVec nstates),
            prior_C := .val (zeroMat nstates),
            transition_matrix_sampling_steps := steps, nsamples := nsamp,
            output := out } := by
  cases tp <;> rfl

/-- C1: a `fit` call with `save_hidden_state_trajectory=False` stores a
snapshot whose `hidden_state_trajectories` attribute (plural, the one written
by `_update_hidden_state_trajectories`) still holds the resampled
trajectories; only the separately named `hidden_state_trajectory` attribute
(singular) is set to `None` by line 282. -/
theorem C1_fit_snapshot_retains_trajectories :
    Except.map (fun p => p.samples.map fun m =>
        (m.hidden_state_trajectories, m.hidden_state_trajectory))
      (BayesianHMMSampler.fit exS exOr exObs 0 1 false).1 =
      .ok [(some [[0, 0]], none)] :=
  rfl

/-- C8 counterexample: a `fit` call that raises during collection (here a
disconnected count matrix under `reversible=True`) ends with both scratch
buffers (`_alpha` and `_pobs`) still allocated, because the deletes at lines
290-291 are only on the normal return path. -/
theorem C8_buffers_not_released_on_error :
    BayesianHMMSampler.fit exSRev exOr exObs 0 1 false =
      (.error .disconnectedSweepNotImplemented, true, true) := by
  with_unfolding_all rfl

theorem collectSamples_length (f : HMM → Except Err HMM) (nthin : ℕ) (save : Bool) :
    ∀ (k : ℕ) (m : HMM) (L : List HMM),
      collectSamples f nthin save k m = .ok L → L.length = k := by
  intro k
  induction k with
  | zero =>
    intro m L h
    unfold collectSamples at h
    cases h
    rfl
  | succ n ih =>
    intro m L h
    unfold collectSamples at h
    split at h
    · cases h
    · split at h
      · cases h
      · cases h
        rename_i m' hb rest hc
        simp [ih _ _ hc]
theorem resolveSampler_nsamples (s : BayesianHMMSampler) (g : Oracles)
    (observations : List Obs) (s1 : BayesianHMMSampler)
    (h : resolveSampler s g observations = .ok s1) : s1.nsamples = s.nsamples := by
  unfold resolveSampler at h
  split at h
  · cases h; rfl
  · split at h
    · cases h
    · split at h
      · cases h
      · cases h; rfl

theorem C9_posterior_counts (s : BayesianHMMSampler) (g : Oracles)
    (observations : List Obs) (nburn nthin : ℕ) (save : Bool)
    (p : BayesianHMMPosterior)
    (h : (BayesianHMMSampler.fit s g observations nburn nthin save).1 = .ok p) :
    p.samples.length = s.nsamples ∧ p.prior = fitInitialModel s g observations := by
  unfold BayesianHMMSampler.fit at h
  split at h
  · cases h
  · split at h
    · cases h
    · rename_i s1 hr
      split at h
      · cases h
      · split at h
        · cases h
        · rename_i models hc
          cases h
          exact ⟨(collectSamples_length _ _ _ _ _ _ hc).trans
                   (resolveSampler_nsamples s g observations s1 hr), rfl⟩
theorem C8_buffers_released_on_success (s : BayesianHMMSampler) (g : Oracles)
    (observations : List Obs) (nburn nthin : ℕ) (save : Bool)
    (h : exceptIsOk (BayesianHMMSampler.fit s g observations nburn nthin save).1 = true) :
    (BayesianHMMSampler.fit s g observations nburn nthin save).2 = (false, false) := by
  unfold BayesianHMMSampler.fit at h ⊢
  split
  · rfl
  · rename_i hobs
    rw [if_neg hobs] at h
    split
    · rename_i e hr
      rw [hr] at h
      simp [exceptIsOk] at h
    · rename_i s1 hr
      simp only [hr] at h
      split
      · rename_i e hb
        rw [hb] at h
        simp [exceptIsOk] at h
      · rename_i m0 hb
        simp only [hb] at h
        split
        · rename_i e hc
          rw [hc] at h
          simp [exceptIsOk] at h
        · rfl
theorem C3_reversible_disconnected_raises (s : BayesianHMMSampler) (g : Oracles)
    (model : HMM) (pc : Mat) (hrev : s.reversible = true)
    (hpc : s.prior_C = .val pc)
    (hdis : is_connected (matAdd model.count_matrix pc) = false) :
    BayesianHMMSampler.update_transition_matrix s g model =
      .error .disconnectedSweepNotImplemented ∧
    (∀ (g' : Oracles) (model' m' : HMM) (c : TMatCall),
        BayesianHMMSampler.update_transition_matrix s g' model' = .ok (m', c) →
        c.reversible = true) ∧
    (∀ (n : ℕ) (stat : Bool) (steps nsamp : ℕ) (out : String) (m : HMM),
        is_connected (matAdd m.transition_matrix (zeroMat n)) = false →
        BayesianHMMSampler.init n (some m) true stat steps .pyNone .pyNone out nsamp =
          .error .disconnectedInitNotImplemented) := by
  refine ⟨?_, ?_, ?_⟩
  · simp [BayesianHMMSampler.update_transition_matrix, hpc, hrev, hdis]
  · intro g' model' m' c h
    unfold BayesianHMMSampler.update_transition_matrix at h
    simp only [hpc] at h
    by_cases hg : (s.reversible && !is_connected (matAdd model'.count_matrix pc)) = true
    · rw [if_pos hg] at h
      cases h
    · rw [if_neg hg] at h
      split at h
      · cases h
      · cases h
        simpa using hrev
  · intro n stat steps nsamp out m hd
    unfold BayesianHMMSampler.init
    simp [HMM.copy, hd]

/-- C9 witness: the concrete non-reversible `fit` succeeds with one sample
plus the prior snapshot. -/
theorem C9_posterior_counts_witness :
    (BayesianHMMSampler.fit exS exOr exObs 0 1 false).1 = .ok exPost ∧
    (exPost.samples.length = exS.nsamples ∧
     exPost.prior = fitInitialModel exS exOr exObs) :=
  ⟨by with_unfolding_all rfl,
   C9_posterior_counts exS exOr exObs 0 1 false exPost (by with_unfolding_all rfl)⟩

/-- C8 witness: the success clause evaluated on the concrete successful fit. -/
theorem C8_buffers_released_on_success_witness :
    exceptIsOk (BayesianHMMSampler.fit exS exOr exObs 0 1 false).1 = true ∧
    (BayesianHMMSampler.fit exS exOr exObs 0 1 false).2 = (false, false) :=
  ⟨by with_unfolding_all rfl,
   C8_buffers_released_on_success exS exOr exObs 0 1 false (by with_unfolding_all rfl)⟩

/-- C3 witness: a concrete reversible sampler hitting a disconnected posterior
count matrix raises the sweep-level error. -/
theorem C3_reversible_disconnected_raises_witness :
    exSRev.reversible = true ∧ exSRev.prior_C = .val (zeroMat 2) ∧
    is_connected (matAdd exModelTraj.count_matrix (zeroMat 2)) = false ∧
    BayesianHMMSampler.update_transition_matrix exSRev exOr exModelTraj =
      .error .disconnectedSweepNotImplemented :=
  ⟨rfl, rfl, by with_unfolding_all rfl,
   (C3_reversible_disconnected_raises exSRev exOr exModelTraj (zeroMat 2) rfl rfl
     (by with_unfolding_all rfl)).1⟩
